import Mathlib

/-!
Verification development for the CoreMatch AI scoring pipeline.

Shallow embedding of `backend/ai/scorer.py` (transcription adapter and
answer scorer) and `backend/workers/video_processor.py` (candidate
processor), together with `backend/services/notification_service.py`.

Modelling conventions:
* Python floats are modelled as rationals; `round(x, 2)` is modelled as
  round-half-to-even on hundredths (the rounding mode of Python round).
* Network and database effects are oracles supplied as explicit inputs:
  each external call site becomes a field of an environment record whose
  value is the outcome that call would have produced.  Python exceptions
  become `Except String` results; a try/except block in the source is
  translated by matching on the oracle outcome and continuing on both
  branches (when the source swallows the exception) or propagating the
  error (when it re-raises).
-/

/-- Python str.strip(): drop whitespace from both ends.  Modelled over
the character list so that concrete instances reduce in the kernel. -/
def pyStrip (s : String) : String :=
  String.mk (((s.data.dropWhile Char.isWhitespace).reverse.dropWhile Char.isWhitespace).reverse)

/-- Round-half-to-even to an integer, as Python round does on ties. -/
def roundHalfEven (q : ℚ) : ℤ :=
  let f : ℤ := q.floor
  let r : ℚ := q - (f : ℚ)
  if r < 1/2 then f
  else if 1/2 < r then f + 1
  else if f % 2 = 0 then f else f + 1

/-- Python round(x, 2): round to 2 decimal digits, ties to even. -/
def round2 (q : ℚ) : ℚ :=
  ((roundHalfEven (q * 100) : ℤ) : ℚ) / 100

/-- scorer.py line 22: CONTENT_WEIGHT = 0.50 -/
def CONTENT_WEIGHT : ℚ := 0.50

/-- scorer.py line 23: COMMUNICATION_WEIGHT = 0.30 -/
def COMMUNICATION_WEIGHT : ℚ := 0.30

/-- scorer.py line 24: BEHAVIORAL_WEIGHT = 0.20 -/
def BEHAVIORAL_WEIGHT : ℚ := 0.20

/-- scorer.py line 27: TIER_STRONG_PROCEED = 70 -/
def TIER_STRONG_PROCEED : ℚ := 70

/-- scorer.py line 28: TIER_CONSIDER = 50 -/
def TIER_CONSIDER : ℚ := 50

/-- Model configuration: the scoring and fallback model identifiers,
read from environment variables with defaults (scorer.py lines 32-33). -/
structure ModelConfig where
  MODEL_SCORING : String
  MODEL_FALLBACK : String
deriving DecidableEq

/-- The default configuration when the environment variables are unset. -/
def defaultModelConfig : ModelConfig :=
  { MODEL_SCORING := "llama-3.3-70b-versatile"
    MODEL_FALLBACK := "mixtral-8x7b-32768" }

/-- The JSON payload parsed from the chat-completion response
(scorer.py line 227, result_data).  Each field of the expected schema is
`Option`-valued: `none` models an absent key, matching the dict.get
defaults used at the access sites. -/
structure LLMJson where
  content_score : Option ℚ
  communication_score : Option ℚ
  behavioral_score : Option ℚ
  overall_score : Option ℚ
  tier : Option String
  strengths : Option (List String)
  improvements : Option (List String)
  language_match : Option Bool
deriving DecidableEq

/-- A parsed payload with no keys: models the empty dict that is the
dataclass default for raw_response. -/
def emptyLLMJson : LLMJson :=
  { content_score := none, communication_score := none,
    behavioral_score := none, overall_score := none, tier := none,
    strengths := none, improvements := none, language_match := none }

/-- scorer.py lines 36-50: the ScoreResult dataclass. -/
structure ScoreResult where
  content_score : ℚ
  communication_score : ℚ
  behavioral_score : ℚ
  overall_score : ℚ
  tier : String
  strengths : List String
  improvements : List String
  transcript : String
  detected_language : String
  language_match : Bool
  model_used : String
  scoring_source : String
  raw_response : LLMJson
deriving DecidableEq

/-- scorer.py lines 230-232: max(0.0, min(100.0, x)). -/
def clampScore (x : ℚ) : ℚ := max 0 (min 100 x)

/-- scorer.py lines 242-247 (and inlined with the same imported
constants at video_processor.py lines 213-218): derive the tier string
from an overall score. -/
def tierOf (overall : ℚ) : String :=
  if overall ≥ TIER_STRONG_PROCEED then "strong_proceed"
  else if overall ≥ TIER_CONSIDER then "consider"
  else "likely_pass"

/-- scorer.py lines 157-170: the fixed fallback ScoreResult returned for
an empty or very short transcript. -/
def fallbackScoreResult (transcript detected_language : String) : ScoreResult :=
  { content_score := 0
    communication_score := 0
    behavioral_score := 5
    overall_score := 1.5
    tier := "likely_pass"
    strengths := []
    improvements := ["No response provided", "Please ensure your microphone is working"]
    transcript := transcript
    detected_language := detected_language
    language_match := true
    model_used := "none"
    scoring_source := "fallback"
    raw_response := emptyLLMJson }

/-- scorer.py lines 229-263: clamp the three component scores, recompute
the overall score from the fixed weights, derive the tier, and build the
ScoreResult from a successfully parsed payload.  The payload fields
overall_score and tier are never read. -/
def buildScoreResult (j : LLMJson) (model_used : String)
    (transcript detected_language : String) : ScoreResult :=
  let content := clampScore (j.content_score.getD 0)
  let communication := clampScore (j.communication_score.getD 0)
  let behavioral := clampScore (j.behavioral_score.getD 0)
  let overall := content * CONTENT_WEIGHT + communication * COMMUNICATION_WEIGHT +
    behavioral * BEHAVIORAL_WEIGHT
  { content_score := round2 content
    communication_score := round2 communication
    behavioral_score := round2 behavioral
    overall_score := round2 overall
    tier := tierOf overall
    strengths := (j.strengths.getD []).take 5
    improvements := (j.improvements.getD []).take 3
    transcript := transcript
    detected_language := detected_language
    language_match := j.language_match.getD true
    model_used := model_used
    scoring_source := "groq"
    raw_response := j }

/-- Outcome of one chat-completion attempt (scorer.py lines 211-227):
the call succeeded and the (fence-stripped) text parsed as JSON, or
json.loads raised JSONDecodeError, or the call raised any other
exception (carried as an abstract description). -/
inductive CallOutcome where
  | ok (j : LLMJson)
  | jsonError
  | otherError (e : String)
deriving DecidableEq

/-- Errors score_answer can raise: the RuntimeError after two invalid
JSON attempts (scorer.py line 271), or a re-raised call exception
(scorer.py line 278). -/
inductive ScoringErr where
  | ScoringError (msg : String)
  | raised (e : String)
deriving DecidableEq

/-- scorer.py lines 142-278: score one interview answer.  The two
chat-completion attempts of the retry loop are given by the oracle
`attempts` (attempt 0 runs against cfg.MODEL_SCORING, attempt 1 against
cfg.MODEL_FALLBACK after the first failure); the source loop is
range(2), so only attempts 0 and 1 exist.  The prompt-only inputs
(question, job context, duration, language note) shape the oracle call
and carry no control flow of their own. -/
def score_answer (cfg : ModelConfig)
    (question : String) (transcript : String)
    (job_title : String) (job_description : String)
    (duration_seconds : ℚ)
    (detected_language : String) (expected_language : String)
    (attempts : ℕ → CallOutcome) : Except ScoringErr ScoreResult :=
  if transcript = "" ∨ (pyStrip transcript).length < 10 then
    Except.ok (fallbackScoreResult transcript detected_language)
  else
    match attempts 0 with
    | CallOutcome.ok j =>
        Except.ok (buildScoreResult j cfg.MODEL_SCORING transcript detected_language)
    | CallOutcome.jsonError =>
        match attempts 1 with
        | CallOutcome.ok j =>
            Except.ok (buildScoreResult j cfg.MODEL_FALLBACK transcript detected_language)
        | CallOutcome.jsonError =>
            Except.error (ScoringErr.ScoringError "LLM scoring failed: invalid JSON after 2 attempts")
        | CallOutcome.otherError e => Except.error (ScoringErr.raised e)
    | CallOutcome.otherError _ =>
        match attempts 1 with
        | CallOutcome.ok j =>
            Except.ok (buildScoreResult j cfg.MODEL_FALLBACK transcript detected_language)
        | CallOutcome.jsonError =>
            Except.error (ScoringErr.ScoringError "LLM scoring failed: invalid JSON after 2 attempts")
        | CallOutcome.otherError e => Except.error (ScoringErr.raised e)

/-- scorer.py lines 112-117: the Whisper language hint derived from the
expected language; for "both" the hint is omitted. -/
def whisperLanguageHint (expected_language : String) : Option String :=
  if expected_language = "ar" then some "ar"
  else if expected_language = "en" then some "en"
  else none

/-- The speech-to-text response (scorer.py lines 129-131): the text
field, and the language attribute.  `none` models an absent attribute
(getattr takes its default); `some none` models the attribute present
with value None; `some (some s)` models a string value, possibly empty.
Both None and the empty string are falsy for the `or` fallback. -/
structure WhisperResponse where
  text : String
  language : Option (Option String)
deriving DecidableEq

/-- scorer.py lines 102-136, success path: strip the transcript, and
default the detected language to the expected language when the
response carries no usable language attribute.  A failing service call
raises (re-raised at line 139) and is modelled at the call site. -/
def transcribe_audio (resp : WhisperResponse) (expected_language : String) :
    String × String :=
  let transcript := pyStrip resp.text
  let detected_language :=
    match resp.language with
    | none => expected_language
    | some none => expected_language
    | some (some s) => if s = "" then expected_language else s
  (transcript, detected_language)

/-- A Python value appearing in the summary dict returned by
process_candidate: None, a number, or a string. -/
inductive PyVal where
  | none
  | num (q : ℚ)
  | str (s : String)
deriving DecidableEq

/-- The columns of the candidate/campaign/user fetch that carry control
flow in process_candidate (video_processor.py lines 36-68).  The other
columns (names, emails, job context) are only passed through to the
side-effect oracles and to the per-answer pipeline oracle. -/
structure CandidateRow where
  notify_on_complete : Bool
deriving DecidableEq

/-- One row of the video_answers fetch (video_processor.py lines 74-83):
only rows with a non-null storage_key are selected. -/
structure VideoAnswerRow where
  id : String
  question_index : ℤ
  question_text : String
  storage_key : String
deriving DecidableEq

/-- Outcome of the per-answer try block (video_processor.py lines
120-189): download, score_video pipeline and the score/transcript
persistence either all succeed, yielding the ScoreResult, or some step
raises. -/
inductive AnswerOutcome where
  | success (r : ScoreResult)
  | failure (e : String)
deriving DecidableEq

/-- True when the outcome is a success. -/
def outcomeIsSuccess : AnswerOutcome → Bool
  | AnswerOutcome.success _ => true
  | AnswerOutcome.failure _ => false

/-- The overall score carried by a successful outcome (0 on failure;
only read under an outcomeIsSuccess filter). -/
def outcomeScore : AnswerOutcome → ℚ
  | AnswerOutcome.success r => r.overall_score
  | AnswerOutcome.failure _ => 0

/-- Oracle environment for one process_candidate run: the outcome every
external call would produce.  Database reads can fail (Except); writes
wrapped in try/except blocks that swallow errors are carried as the raw
outcome and discarded at the use site, mirroring the source. -/
structure WorkerEnv where
  candidateRow : Except String (Option CandidateRow)
  videoAnswers : Except String (List VideoAnswerRow)
  markProcessingOk : String → Bool
  answerOutcome : String → AnswerOutcome
  markFailedOk : String → Bool
  updateCandidate : Except String Unit
  confirmationEmail : Except String Unit
  hrNotification : Except String Unit
  auditLog : Except String Unit
  ownerLookup : Except String (Option String)
  createNotificationInsert : Except String Unit

/-- Mutable state of the per-answer loop (video_processor.py lines
93-95), extended with the trace of processing_status writes so that the
status transitions are observable. -/
structure LoopState where
  processed_count : ℕ
  failed_count : ℕ
  all_scores : List ℚ
  statusWrites : List (String × String)
deriving DecidableEq

/-- Body of the per-answer loop (video_processor.py lines 98-207): mark
the answer as processing (errors swallowed, lines 110-118), then either
count a success and record its overall score (lines 120-189), or count
a failure and mark the answer failed with errors swallowed (lines
191-207). -/
def processOneAnswer (env : WorkerEnv) (st : LoopState) (va : VideoAnswerRow) :
    LoopState :=
  let st1 : LoopState :=
    { st with statusWrites := st.statusWrites ++
        (if env.markProcessingOk va.id then [(va.id, "processing")] else []) }
  match env.answerOutcome va.id with
  | AnswerOutcome.success r =>
      { st1 with
          processed_count := st1.processed_count + 1,
          all_scores := st1.all_scores ++ [r.overall_score],
          statusWrites := st1.statusWrites ++ [(va.id, "complete")] }
  | AnswerOutcome.failure _ =>
      { st1 with
          failed_count := st1.failed_count + 1,
          statusWrites := st1.statusWrites ++
            (if env.markFailedOk va.id then [(va.id, "failed")] else []) }

/-- The full per-answer loop over the fetched video answers. -/
def processLoop (env : WorkerEnv) (vas : List VideoAnswerRow) : LoopState :=
  vas.foldl (processOneAnswer env)
    { processed_count := 0, failed_count := 0, all_scores := [], statusWrites := [] }

/-- video_processor.py lines 209-235: the aggregate score and tier.
With at least one successful score, the mean rounded to 2 decimals and
the tier derived from it with the shared thresholds; otherwise both
None. -/
def aggregateScores (all_scores : List ℚ) : Option ℚ × Option String :=
  if all_scores.isEmpty then (none, none)
  else
    let overall_score := round2 (all_scores.sum / (all_scores.length : ℚ))
    (some overall_score, some (tierOf overall_score))

/-- notification_service.py lines 14-44: insert one notification row;
the insert is wrapped in try/except, so the function never raises. -/
def create_notification (insertOutcome : Except String Unit) : Except String Unit :=
  match insertOutcome with
  | Except.ok _ => Except.ok ()
  | Except.error _ => Except.ok ()

/-- notification_service.py lines 47-85: look up the campaign owner and
notify them; the whole body is wrapped in try/except, an absent row or
an excluded user returns early, and create_notification itself never
raises. -/
def notify_campaign_owner (ownerLookup : Except String (Option String))
    (exclude_user_id : Option String)
    (insertOutcome : Except String Unit) : Except String Unit :=
  match ownerLookup with
  | Except.error _ => Except.ok ()
  | Except.ok Option.none => Except.ok ()
  | Except.ok (Option.some owner_id) =>
      if exclude_user_id = some owner_id then Except.ok ()
      else create_notification insertOutcome

/-- video_processor.py lines 17-345: process all stored video answers of
one candidate.  Fetch failures and a missing candidate raise (lines
50-56); with no stored answers the three-key zero summary is returned
(line 90); otherwise the loop runs, the aggregate is computed, each
side effect is attempted with its failure swallowed (lines 220-335),
and the five-key summary dict is returned (lines 337-345). -/
def process_candidate (candidate_id : String) (env : WorkerEnv) :
    Except String (List (String × PyVal)) :=
  match env.candidateRow with
  | Except.error e => Except.error e
  | Except.ok Option.none =>
      Except.error ("Candidate " ++ candidate_id ++ " not found")
  | Except.ok (Option.some cand) =>
    match env.videoAnswers with
    | Except.error e => Except.error e
    | Except.ok video_answers =>
      if video_answers.isEmpty then
        Except.ok [("candidate_id", PyVal.str candidate_id),
                   ("processed", PyVal.num 0), ("failed", PyVal.num 0)]
      else
        let st := processLoop env video_answers
        let agg := aggregateScores st.all_scores
        let _try_update := if st.all_scores.isEmpty then Except.ok () else env.updateCandidate
        let _try_confirmation := env.confirmationEmail
        let _try_hr := if cand.notify_on_complete && agg.1.isSome then env.hrNotification
          else Except.ok ()
        let _try_audit := env.auditLog
        let _never_raises := notify_campaign_owner env.ownerLookup none
          env.createNotificationInsert
        Except.ok [("candidate_id", PyVal.str candidate_id),
                   ("processed", PyVal.num (st.processed_count : ℚ)),
                   ("failed", PyVal.num (st.failed_count : ℚ)),
                   ("overall_score",
                     match agg.1 with
                     | Option.some q => PyVal.num q
                     | Option.none => PyVal.none),
                   ("tier",
                     match agg.2 with
                     | Option.some t => PyVal.str t
                     | Option.none => PyVal.none)]

/-- The processing_status writes one answer contributes: the processing
mark (when its write succeeds), then complete on success, or failed on
failure (when that write succeeds). -/
def perAnswerWrites (env : WorkerEnv) (va : VideoAnswerRow) : List (String × String) :=
  (if env.markProcessingOk va.id then [(va.id, "processing")] else []) ++
  (match env.answerOutcome va.id with
   | AnswerOutcome.success _ => [(va.id, "complete")]
   | AnswerOutcome.failure _ =>
       if env.markFailedOk va.id then [(va.id, "failed")] else [])

/-- Closed form of the per-answer loop from an arbitrary start state:
each answer contributes to exactly one counter according to its own
outcome, successful overall scores are collected in order, and the
status-write trace is the concatenation of the per-answer writes. -/
theorem processLoop_go (env : WorkerEnv) (vas : List VideoAnswerRow) (st : LoopState) :
    vas.foldl (processOneAnswer env) st =
      { processed_count := st.processed_count +
          (vas.filter (fun va => outcomeIsSuccess (env.answerOutcome va.id))).length,
        failed_count := st.failed_count +
          (vas.filter (fun va => !outcomeIsSuccess (env.answerOutcome va.id))).length,
        all_scores := st.all_scores ++
          ((vas.filter (fun va => outcomeIsSuccess (env.answerOutcome va.id))).map
            (fun va => outcomeScore (env.answerOutcome va.id))),
        statusWrites := st.statusWrites ++ vas.flatMap (perAnswerWrites env) } := by
  induction vas generalizing st with
  | nil => simp
  | cons va vas ih =>
    rcases h : env.answerOutcome va.id with r | e
    · simp only [List.foldl_cons, ih, processOneAnswer, h, List.filter_cons,
        List.flatMap_cons, perAnswerWrites, outcomeIsSuccess, outcomeScore]
      simp [h, outcomeScore, List.append_assoc]
      omega
    · simp only [List.foldl_cons, ih, processOneAnswer, h, List.filter_cons,
        List.flatMap_cons, perAnswerWrites, outcomeIsSuccess, outcomeScore]
      simp [h, List.append_assoc]
      omega

/-- Closed form of the full loop. -/
theorem processLoop_spec (env : WorkerEnv) (vas : List VideoAnswerRow) :
    processLoop env vas =
      { processed_count :=
          (vas.filter (fun va => outcomeIsSuccess (env.answerOutcome va.id))).length,
        failed_count :=
          (vas.filter (fun va => !outcomeIsSuccess (env.answerOutcome va.id))).length,
        all_scores :=
          ((vas.filter (fun va => outcomeIsSuccess (env.answerOutcome va.id))).map
            (fun va => outcomeScore (env.answerOutcome va.id))),
        statusWrites := vas.flatMap (perAnswerWrites env) } := by
  simpa using processLoop_go env vas
    { processed_count := 0, failed_count := 0, all_scores := [], statusWrites := [] }

/-- clampScore always lands in [0, 100]. -/
theorem clampScore_mem (x : ℚ) : 0 ≤ clampScore x ∧ clampScore x ≤ 100 :=
  ⟨le_max_left 0 _, max_le (by norm_num) (min_le_left 100 x)⟩

/-- C1: in the live-model path of score_answer, each component score of
the parsed payload is clamped to [0,100], the overall score of the
returned ScoreResult is round2 of the 50/30/20 weighted sum of the
clamped values, and the overall_score field the model reports is
discarded (changing it changes neither the returned overall score nor
the tier). -/
theorem score_answer_live_recomputes_overall
    (cfg : ModelConfig) (question transcript job_title job_description : String)
    (duration_seconds : ℚ) (detected_language expected_language : String)
    (attempts : ℕ → CallOutcome) (j : LLMJson)
    (hlen : ¬(transcript = "" ∨ (pyStrip transcript).length < 10))
    (h0 : attempts 0 = CallOutcome.ok j) :
    score_answer cfg question transcript job_title job_description duration_seconds
        detected_language expected_language attempts =
      Except.ok (buildScoreResult j cfg.MODEL_SCORING transcript detected_language) ∧
    (0 ≤ clampScore (j.content_score.getD 0) ∧ clampScore (j.content_score.getD 0) ≤ 100) ∧
    (0 ≤ clampScore (j.communication_score.getD 0) ∧
      clampScore (j.communication_score.getD 0) ≤ 100) ∧
    (0 ≤ clampScore (j.behavioral_score.getD 0) ∧
      clampScore (j.behavioral_score.getD 0) ≤ 100) ∧
    (buildScoreResult j cfg.MODEL_SCORING transcript detected_language).overall_score =
      round2 (clampScore (j.content_score.getD 0) * CONTENT_WEIGHT +
        clampScore (j.communication_score.getD 0) * COMMUNICATION_WEIGHT +
        clampScore (j.behavioral_score.getD 0) * BEHAVIORAL_WEIGHT) ∧
    (∀ o : Option ℚ,
      (buildScoreResult { j with overall_score := o } cfg.MODEL_SCORING transcript
          detected_language).overall_score =
        (buildScoreResult j cfg.MODEL_SCORING transcript detected_language).overall_score ∧
      (buildScoreResult { j with overall_score := o } cfg.MODEL_SCORING transcript
          detected_language).tier =
        (buildScoreResult j cfg.MODEL_SCORING transcript detected_language).tier) := by
  refine ⟨?_, clampScore_mem _, clampScore_mem _, clampScore_mem _, rfl,
    fun o => ⟨rfl, rfl⟩⟩
  unfold score_answer
  rw [if_neg hlen, h0]

/-- A sample parsed payload used by concrete witnesses. -/
def jsonA : LLMJson :=
  { content_score := some 80, communication_score := some 60,
    behavioral_score := some 50, overall_score := some 12,
    tier := some "likely_pass", strengths := some ["clear"],
    improvements := some ["detail"], language_match := some true }

/-- Witness for C1 at a concrete transcript and payload. -/
theorem score_answer_live_recomputes_overall_witness :
    ¬(("I have five years of experience" : String) = "" ∨
        (pyStrip "I have five years of experience").length < 10) ∧
    score_answer defaultModelConfig "q" "I have five years of experience" "jt" "jd" 30
        "en" "en" (fun _ => CallOutcome.ok jsonA) =
      Except.ok (buildScoreResult jsonA defaultModelConfig.MODEL_SCORING
        "I have five years of experience" "en") :=
  ⟨by decide,
    (score_answer_live_recomputes_overall defaultModelConfig "q"
      "I have five years of experience" "jt" "jd" 30 "en" "en"
      (fun _ => CallOutcome.ok jsonA) jsonA (by decide) rfl).1⟩

/-- C2: wherever a tier is derived from an overall score, the
thresholds are inclusive on the upper tier: within [0,100] the tier is
strong_proceed iff the score is at least 70, consider iff it is in
[50,70), likely_pass iff it is below 50; score_answer derives the
per-answer tier with tierOf from the recomputed weighted overall, and
process_candidate derives the aggregate tier with tierOf from the
rounded mean. -/
theorem tier_thresholds (overall : ℚ) (h0 : 0 ≤ overall) (h100 : overall ≤ 100) :
    ((tierOf overall = "strong_proceed" ↔ 70 ≤ overall) ∧
     (tierOf overall = "consider" ↔ 50 ≤ overall ∧ overall < 70) ∧
     (tierOf overall = "likely_pass" ↔ overall < 50)) ∧
    (∀ (j : LLMJson) (m t dl : String), (buildScoreResult j m t dl).tier =
      tierOf (clampScore (j.content_score.getD 0) * CONTENT_WEIGHT +
        clampScore (j.communication_score.getD 0) * COMMUNICATION_WEIGHT +
        clampScore (j.behavioral_score.getD 0) * BEHAVIORAL_WEIGHT)) ∧
    (∀ scores : List ℚ, ¬scores.isEmpty →
      (aggregateScores scores).2 =
        some (tierOf (round2 (scores.sum / (scores.length : ℚ))))) := by
  refine ⟨?_, fun j m t dl => rfl, fun scores hs => by simp [aggregateScores, hs]⟩
  unfold tierOf TIER_STRONG_PROCEED TIER_CONSIDER
  split_ifs with h1 h2
  · exact ⟨⟨fun _ => h1, fun _ => rfl⟩,
      ⟨fun hc => absurd hc (by decide), fun hc => absurd h1 (not_le.mpr hc.2)⟩,
      ⟨fun hc => absurd hc (by decide), fun hc => absurd h1 (by linarith)⟩⟩
  · exact ⟨⟨fun hc => absurd hc (by decide), fun hge => absurd hge h1⟩,
      ⟨fun _ => ⟨h2, not_le.mp h1⟩, fun _ => rfl⟩,
      ⟨fun hc => absurd hc (by decide), fun hc => absurd h2 (not_le.mpr hc)⟩⟩
  · exact ⟨⟨fun hc => absurd hc (by decide), fun hge => absurd hge h1⟩,
      ⟨fun hc => absurd hc (by decide), fun hc => absurd hc.1 h2⟩,
      ⟨fun _ => not_le.mp h2, fun _ => rfl⟩⟩

/-- Witness for C2 at the boundary value 70. -/
theorem tier_thresholds_witness :
    (0 : ℚ) ≤ 70 ∧ (70 : ℚ) ≤ 100 ∧ tierOf 70 = "strong_proceed" :=
  ⟨by decide, by decide,
    ((tier_thresholds 70 (by decide) (by decide)).1.1).mpr (by decide)⟩

/-- C3: an empty transcript, or one whose stripped length is under 10
characters, short-circuits score_answer to the fixed fallback
ScoreResult whatever the model attempts would have returned, with the
exact fixed field values. -/
theorem score_answer_short_transcript_fallback
    (cfg : ModelConfig) (question transcript job_title job_description : String)
    (duration_seconds : ℚ) (detected_language expected_language : String)
    (attempts : ℕ → CallOutcome)
    (h : transcript = "" ∨ (pyStrip transcript).length < 10) :
    score_answer cfg question transcript job_title job_description duration_seconds
        detected_language expected_language attempts =
      Except.ok (fallbackScoreResult transcript detected_language) ∧
    (fallbackScoreResult transcript detected_language).content_score = 0 ∧
    (fallbackScoreResult transcript detected_language).communication_score = 0 ∧
    (fallbackScoreResult transcript detected_language).behavioral_score = 5 ∧
    (fallbackScoreResult transcript detected_language).overall_score = 1.5 ∧
    (fallbackScoreResult transcript detected_language).tier = "likely_pass" ∧
    (fallbackScoreResult transcript detected_language).strengths = [] ∧
    (fallbackScoreResult transcript detected_language).improvements =
      ["No response provided", "Please ensure your microphone is working"] ∧
    (fallbackScoreResult transcript detected_language).scoring_source = "fallback" ∧
    (fallbackScoreResult transcript detected_language).model_used = "none" := by
  refine ⟨?_, rfl, rfl, rfl, rfl, rfl, rfl, rfl, rfl, rfl⟩
  unfold score_answer
  rw [if_pos h]

/-- Witness for C3 at the transcript "hi", with attempts that would all
fail, showing the model is never consulted. -/
theorem score_answer_short_transcript_fallback_witness :
    (("hi" : String) = "" ∨ (pyStrip "hi").length < 10) ∧
    score_answer defaultModelConfig "q" "hi" "jt" "jd" 30 "en" "en"
        (fun _ => CallOutcome.jsonError) =
      Except.ok (fallbackScoreResult "hi" "en") :=
  ⟨by decide,
    (score_answer_short_transcript_fallback defaultModelConfig "q" "hi" "jt" "jd" 30
      "en" "en" (fun _ => CallOutcome.jsonError) (by decide)).1⟩

/-- C4: score_answer retries exactly once.  After a first-attempt
failure of either class the retry runs against the fallback model and a
successful retry reports it in model_used; a second invalid-JSON
failure raises the ScoringError message with no third attempt (the
result depends only on attempts 0 and 1); any other retry failure
propagates unchanged. -/
theorem score_answer_retry_policy
    (cfg : ModelConfig) (question transcript job_title job_description : String)
    (duration_seconds : ℚ) (detected_language expected_language : String)
    (hlen : ¬(transcript = "" ∨ (pyStrip transcript).length < 10)) :
    (∀ (attempts : ℕ → CallOutcome) (j : LLMJson) (e : String),
      (attempts 0 = CallOutcome.jsonError ∨ attempts 0 = CallOutcome.otherError e) →
      attempts 1 = CallOutcome.ok j →
      score_answer cfg question transcript job_title job_description duration_seconds
          detected_language expected_language attempts =
        Except.ok (buildScoreResult j cfg.MODEL_FALLBACK transcript detected_language) ∧
      (buildScoreResult j cfg.MODEL_FALLBACK transcript detected_language).model_used =
        cfg.MODEL_FALLBACK) ∧
    (∀ (attempts : ℕ → CallOutcome) (e : String),
      (attempts 0 = CallOutcome.jsonError ∨ attempts 0 = CallOutcome.otherError e) →
      attempts 1 = CallOutcome.jsonError →
      score_answer cfg question transcript job_title job_description duration_seconds
          detected_language expected_language attempts =
        Except.error
          (ScoringErr.ScoringError "LLM scoring failed: invalid JSON after 2 attempts")) ∧
    (∀ (attempts : ℕ → CallOutcome) (e e2 : String),
      (attempts 0 = CallOutcome.jsonError ∨ attempts 0 = CallOutcome.otherError e) →
      attempts 1 = CallOutcome.otherError e2 →
      score_answer cfg question transcript job_title job_description duration_seconds
          detected_language expected_language attempts =
        Except.error (ScoringErr.raised e2)) ∧
    (∀ f g : ℕ → CallOutcome, f 0 = g 0 → f 1 = g 1 →
      score_answer cfg question transcript job_title job_description duration_seconds
          detected_language expected_language f =
        score_answer cfg question transcript job_title job_description duration_seconds
          detected_language expected_language g) := by
  refine ⟨fun attempts j e h0 h1 => ⟨?_, rfl⟩, fun attempts e h0 h1 => ?_,
    fun attempts e e2 h0 h1 => ?_, fun f g h0 h1 => ?_⟩
  · unfold score_answer
    rcases h0 with h0 | h0 <;> rw [if_neg hlen, h0, h1]
  · unfold score_answer
    rcases h0 with h0 | h0 <;> rw [if_neg hlen, h0, h1]
  · unfold score_answer
    rcases h0 with h0 | h0 <;> rw [if_neg hlen, h0, h1]
  · unfold score_answer
    rw [h0, h1]

/-- Witness for C4: first attempt returns invalid JSON, the retry
succeeds, and the result carries the fallback model identifier. -/
theorem score_answer_retry_policy_witness :
    ¬(("I have five years of experience" : String) = "" ∨
        (pyStrip "I have five years of experience").length < 10) ∧
    score_answer defaultModelConfig "q" "I have five years of experience" "jt" "jd" 30
        "en" "en" (fun n => if n = 0 then CallOutcome.jsonError else CallOutcome.ok jsonA) =
      Except.ok (buildScoreResult jsonA defaultModelConfig.MODEL_FALLBACK
        "I have five years of experience" "en") :=
  ⟨by decide,
    ((score_answer_retry_policy defaultModelConfig "q" "I have five years of experience"
        "jt" "jd" 30 "en" "en" (by decide)).1
      (fun n => if n = 0 then CallOutcome.jsonError else CallOutcome.ok jsonA)
      jsonA "" (Or.inl rfl) rfl).1⟩

/-- C10: transcribe_audio returns the service text stripped of
surrounding whitespace, and the detected language defaults to the
expected language exactly when the language attribute is absent, None
or empty; otherwise it is the service-reported language. -/
theorem transcribe_audio_language_default (resp : WhisperResponse)
    (expected_language : String) :
    (transcribe_audio resp expected_language).1 = pyStrip resp.text ∧
    (resp.language = none →
      (transcribe_audio resp expected_language).2 = expected_language) ∧
    (resp.language = some none →
      (transcribe_audio resp expected_language).2 = expected_language) ∧
    (resp.language = some (some "") →
      (transcribe_audio resp expected_language).2 = expected_language) ∧
    (∀ s : String, resp.language = some (some s) → s ≠ "" →
      (transcribe_audio resp expected_language).2 = s) := by
  refine ⟨rfl, fun h => by simp [transcribe_audio, h],
    fun h => by simp [transcribe_audio, h], fun h => by simp [transcribe_audio, h],
    fun s h hs => by simp [transcribe_audio, h, hs]⟩

/-- A sample speech-to-text response used by the C10 witness. -/
def whisperSample : WhisperResponse :=
  { text := " hello there friend ", language := some (some "ar") }

/-- Witness for C10: a reported language wins over the expected one and
the transcript is stripped. -/
theorem transcribe_audio_language_default_witness :
    whisperSample.language = some (some "ar") ∧ ("ar" : String) ≠ "" ∧
    (transcribe_audio whisperSample "en").2 = "ar" ∧
    (transcribe_audio whisperSample "en").1 = pyStrip " hello there friend " :=
  ⟨rfl, by decide,
    (transcribe_audio_language_default whisperSample "en").2.2.2.2 "ar" rfl (by decide),
    (transcribe_audio_language_default whisperSample "en").1⟩

/-- With at least one fetched answer, process_candidate returns the
five-key summary built from the loop state and the aggregate. -/
theorem process_candidate_eq (cid : String) (env : WorkerEnv) (cand : CandidateRow)
    (vas : List VideoAnswerRow)
    (hrow : env.candidateRow = Except.ok (some cand))
    (hvas : env.videoAnswers = Except.ok vas)
    (hne : vas ≠ []) :
    process_candidate cid env = Except.ok
      [("candidate_id", PyVal.str cid),
       ("processed", PyVal.num ((processLoop env vas).processed_count : ℚ)),
       ("failed", PyVal.num ((processLoop env vas).failed_count : ℚ)),
       ("overall_score",
         match (aggregateScores (processLoop env vas).all_scores).1 with
         | Option.some q => PyVal.num q
         | Option.none => PyVal.none),
       ("tier",
         match (aggregateScores (processLoop env vas).all_scores).2 with
         | Option.some t => PyVal.str t
         | Option.none => PyVal.none)] := by
  unfold process_candidate
  rw [hrow, hvas]
  have hE : vas.isEmpty = false := by simp [List.isEmpty_iff, hne]
  simp [hE]

/-- The aggregate on a nonempty score list: rounded mean and its tier. -/
theorem aggregateScores_of_ne (scores : List ℚ) (h : scores ≠ []) :
    aggregateScores scores =
      (some (round2 (scores.sum / (scores.length : ℚ))),
       some (tierOf (round2 (scores.sum / (scores.length : ℚ))))) := by
  simp [aggregateScores, List.isEmpty_iff, h]

/-- The answers whose pipeline outcome succeeded. -/
def successfulAnswers (env : WorkerEnv) (vas : List VideoAnswerRow) :
    List VideoAnswerRow :=
  vas.filter (fun va => outcomeIsSuccess (env.answerOutcome va.id))

/-- The rounded arithmetic mean of the successful overall scores. -/
def successfulMean (env : WorkerEnv) (vas : List VideoAnswerRow) : ℚ :=
  round2 (((successfulAnswers env vas).map
      (fun va => outcomeScore (env.answerOutcome va.id))).sum /
    ((successfulAnswers env vas).length : ℚ))

/-- C5: with at least one successful answer the candidate aggregate in
the returned summary is the rounded mean over the successfully scored
answers only, with the tier derived from that mean by the shared
thresholds; with zero successes both aggregate fields are None. -/
theorem process_candidate_partial_failure_aggregate
    (cid : String) (env : WorkerEnv) (cand : CandidateRow) (vas : List VideoAnswerRow)
    (hrow : env.candidateRow = Except.ok (some cand))
    (hvas : env.videoAnswers = Except.ok vas)
    (hne : vas ≠ []) :
    ∃ d, process_candidate cid env = Except.ok d ∧
      (successfulAnswers env vas ≠ [] →
        d.lookup "overall_score" = some (PyVal.num (successfulMean env vas)) ∧
        d.lookup "tier" = some (PyVal.str (tierOf (successfulMean env vas)))) ∧
      (successfulAnswers env vas = [] →
        d.lookup "overall_score" = some PyVal.none ∧
        d.lookup "tier" = some PyVal.none) := by
  have hsc : (processLoop env vas).all_scores =
      (successfulAnswers env vas).map (fun va => outcomeScore (env.answerOutcome va.id)) := by
    rw [processLoop_spec]
    rfl
  refine ⟨_, process_candidate_eq cid env cand vas hrow hvas hne, ?_, ?_⟩
  · intro hsucc
    have hsne : (processLoop env vas).all_scores ≠ [] := by
      rw [hsc]
      simpa using hsucc
    rw [aggregateScores_of_ne _ hsne]
    rw [hsc]
    constructor <;>
      simp [List.lookup, successfulMean]
  · intro hempty
    have hs0 : (processLoop env vas).all_scores = [] := by
      rw [hsc, hempty]
      rfl
    rw [hs0]
    constructor <;> rfl

/-- The three-answer sample campaign used by the worker witnesses. -/
def vasSample : List VideoAnswerRow :=
  [{ id := "a1", question_index := 0, question_text := "q1", storage_key := "k1" },
   { id := "a2", question_index := 1, question_text := "q2", storage_key := "k2" },
   { id := "a3", question_index := 2, question_text := "q3", storage_key := "k3" }]

/-- A sample successful ScoreResult with a given overall score. -/
def sampleResult (q : ℚ) : ScoreResult :=
  { content_score := q, communication_score := q, behavioral_score := q,
    overall_score := q, tier := "strong_proceed", strengths := [],
    improvements := [], transcript := "t", detected_language := "en",
    language_match := true, model_used := "m", scoring_source := "groq",
    raw_response := emptyLLMJson }

/-- Environment for the C5 witness: answer a2 fails, a1 and a3 score. -/
def envC5 : WorkerEnv :=
  { candidateRow := Except.ok (some { notify_on_complete := false }),
    videoAnswers := Except.ok vasSample,
    markProcessingOk := fun _ => true,
    answerOutcome := fun s =>
      if s = "a2" then AnswerOutcome.failure "extraction failed"
      else AnswerOutcome.success (sampleResult 75),
    markFailedOk := fun _ => true,
    updateCandidate := Except.ok (),
    confirmationEmail := Except.ok (),
    hrNotification := Except.ok (),
    auditLog := Except.ok (),
    ownerLookup := Except.ok none,
    createNotificationInsert := Except.ok () }

/-- Witness for C5 on the three-answer sample with one failure. -/
theorem process_candidate_partial_failure_aggregate_witness :
    vasSample ≠ [] ∧
    (∃ d, process_candidate "cand-5" envC5 = Except.ok d ∧
      (successfulAnswers envC5 vasSample ≠ [] →
        d.lookup "overall_score" = some (PyVal.num (successfulMean envC5 vasSample)) ∧
        d.lookup "tier" = some (PyVal.str (tierOf (successfulMean envC5 vasSample)))) ∧
      (successfulAnswers envC5 vasSample = [] →
        d.lookup "overall_score" = some PyVal.none ∧
        d.lookup "tier" = some PyVal.none)) :=
  ⟨by decide,
    process_candidate_partial_failure_aggregate "cand-5" envC5
      { notify_on_complete := false } vasSample rfl rfl (by decide)⟩

/-- C6: one answer's failure is contained: process_candidate still
returns a summary, a failed answer (whose failure-status write goes
through) is marked failed, only failed answers are ever marked failed,
and every successful answer is still counted regardless of failures
elsewhere in the batch. -/
theorem process_candidate_failure_isolation
    (cid : String) (env : WorkerEnv) (cand : CandidateRow) (vas : List VideoAnswerRow)
    (hrow : env.candidateRow = Except.ok (some cand))
    (hvas : env.videoAnswers = Except.ok vas) :
    (∃ d, process_candidate cid env = Except.ok d) ∧
    (∀ va ∈ vas, ∀ e : String, env.answerOutcome va.id = AnswerOutcome.failure e →
      env.markFailedOk va.id = true →
      (va.id, "failed") ∈ (processLoop env vas).statusWrites) ∧
    (∀ s : String, (s, "failed") ∈ (processLoop env vas).statusWrites →
      ∃ va, va ∈ vas ∧ va.id = s ∧
        ∃ e : String, env.answerOutcome va.id = AnswerOutcome.failure e) ∧
    ((processLoop env vas).processed_count =
      (vas.filter (fun va => outcomeIsSuccess (env.answerOutcome va.id))).length) := by
  refine ⟨?_, ?_, ?_, by rw [processLoop_spec]⟩
  · unfold process_candidate
    rw [hrow, hvas]
    cases h : vas.isEmpty <;> simp [h]
  · intro va hva e hout hmark
    rw [processLoop_spec]
    simp only [List.mem_flatMap]
    exact ⟨va, hva, by simp [perAnswerWrites, hout, hmark]⟩
  · intro s hs
    rw [processLoop_spec] at hs
    simp only [List.mem_flatMap] at hs
    obtain ⟨va, hva, hmem⟩ := hs
    rcases h : env.answerOutcome va.id with r | e
    · rw [perAnswerWrites, h] at hmem
      by_cases hp : env.markProcessingOk va.id <;> simp [hp] at hmem
    · rw [perAnswerWrites, h] at hmem
      by_cases hp : env.markProcessingOk va.id <;>
        by_cases hf : env.markFailedOk va.id <;> simp [hp, hf] at hmem <;>
        exact ⟨va, hva, hmem.symm, e, h⟩

/-- Environment for the C6 witness: the only answer fails. -/
def envC6 : WorkerEnv :=
  { candidateRow := Except.ok (some { notify_on_complete := false }),
    videoAnswers := Except.ok vasSample,
    markProcessingOk := fun _ => true,
    answerOutcome := fun _ => AnswerOutcome.failure "transcription failed",
    markFailedOk := fun _ => true,
    updateCandidate := Except.ok (),
    confirmationEmail := Except.ok (),
    hrNotification := Except.ok (),
    auditLog := Except.ok (),
    ownerLookup := Except.ok none,
    createNotificationInsert := Except.ok () }

/-- Witness for C6: with every pipeline failing, the run still returns
a summary. -/
theorem process_candidate_failure_isolation_witness :
    envC6.candidateRow = Except.ok (some { notify_on_complete := false }) ∧
    (∃ d, process_candidate "cand-6" envC6 = Except.ok d) :=
  ⟨rfl,
    (process_candidate_failure_isolation "cand-6" envC6
      { notify_on_complete := false } vasSample rfl rfl).1⟩

/-- C9: every fetched answer lands in exactly one counter, so processed
plus failed equals the number of fetched answers, and processed equals
the number of scores feeding the aggregate mean. -/
theorem process_candidate_counter_conservation
    (cid : String) (env : WorkerEnv) (cand : CandidateRow) (vas : List VideoAnswerRow)
    (hrow : env.candidateRow = Except.ok (some cand))
    (hvas : env.videoAnswers = Except.ok vas)
    (hne : vas ≠ []) :
    ∃ d, process_candidate cid env = Except.ok d ∧
      d.lookup "processed" = some (PyVal.num ((processLoop env vas).processed_count : ℚ)) ∧
      d.lookup "failed" = some (PyVal.num ((processLoop env vas).failed_count : ℚ)) ∧
      (processLoop env vas).processed_count + (processLoop env vas).failed_count =
        vas.length ∧
      (processLoop env vas).processed_count =
        (processLoop env vas).all_scores.length := by
  refine ⟨_, process_candidate_eq cid env cand vas hrow hvas hne, rfl, rfl, ?_, ?_⟩
  · rw [processLoop_spec]
    exact (List.length_eq_length_filter_add
      (fun (va : VideoAnswerRow) => outcomeIsSuccess (env.answerOutcome va.id))).symm
  · rw [processLoop_spec]
    simp

/-- Witness for C9 on the sample environment with one failing answer. -/
theorem process_candidate_counter_conservation_witness :
    vasSample ≠ [] ∧
    (∃ d, process_candidate "cand-9" envC5 = Except.ok d ∧
      d.lookup "processed" =
        some (PyVal.num ((processLoop envC5 vasSample).processed_count : ℚ)) ∧
      d.lookup "failed" =
        some (PyVal.num ((processLoop envC5 vasSample).failed_count : ℚ)) ∧
      (processLoop envC5 vasSample).processed_count +
        (processLoop envC5 vasSample).failed_count = vasSample.length ∧
      (processLoop envC5 vasSample).processed_count =
        (processLoop envC5 vasSample).all_scores.length) :=
  ⟨by decide,
    process_candidate_counter_conservation "cand-9" envC5
      { notify_on_complete := false } vasSample rfl rfl (by decide)⟩

/-- Environment with a candidate that has no stored video answers. -/
def envC7 : WorkerEnv :=
  { candidateRow := Except.ok (some { notify_on_complete := false }),
    videoAnswers := Except.ok [],
    markProcessingOk := fun _ => true,
    answerOutcome := fun _ => AnswerOutcome.failure "unreachable",
    markFailedOk := fun _ => true,
    updateCandidate := Except.ok (),
    confirmationEmail := Except.ok (),
    hrNotification := Except.ok (),
    auditLog := Except.ok (),
    ownerLookup := Except.ok none,
    createNotificationInsert := Except.ok () }

/-- Counterexample to C7 as stated: with no stored video answers the
returned zero-processed summary carries only candidate_id, processed
and failed, so the overall_score and tier keys are absent. -/
theorem process_candidate_empty_summary_missing_keys :
    process_candidate "cand-7" envC7 =
      Except.ok [("candidate_id", PyVal.str "cand-7"),
                 ("processed", PyVal.num 0), ("failed", PyVal.num 0)] ∧
    List.lookup "overall_score"
      [("candidate_id", PyVal.str "cand-7"),
       ("processed", PyVal.num 0), ("failed", PyVal.num 0)] = none ∧
    List.lookup "tier"
      [("candidate_id", PyVal.str "cand-7"),
       ("processed", PyVal.num 0), ("failed", PyVal.num 0)] = none :=
  ⟨rfl, rfl, rfl⟩

/-- C7 amended: the summary always contains processed and failed; with
at least one stored answer it also contains overall_score and tier;
with none it is the zero-processed three-key summary, returned without
error. -/
theorem process_candidate_summary_keys
    (cid : String) (env : WorkerEnv) (cand : CandidateRow) (vas : List VideoAnswerRow)
    (hrow : env.candidateRow = Except.ok (some cand))
    (hvas : env.videoAnswers = Except.ok vas) :
    (vas = [] → process_candidate cid env =
      Except.ok [("candidate_id", PyVal.str cid),
                 ("processed", PyVal.num 0), ("failed", PyVal.num 0)]) ∧
    (vas ≠ [] → ∃ d, process_candidate cid env = Except.ok d ∧
      (d.lookup "processed").isSome ∧ (d.lookup "failed").isSome ∧
      (d.lookup "overall_score").isSome ∧ (d.lookup "tier").isSome) := by
  constructor
  · intro h
    subst h
    unfold process_candidate
    rw [hrow, hvas]
    rfl
  · intro hne
    exact ⟨_, process_candidate_eq cid env cand vas hrow hvas hne, rfl, rfl, rfl, rfl⟩

/-- Witness for the amended C7 in the no-answers case. -/
theorem process_candidate_summary_keys_witness :
    (([] : List VideoAnswerRow) = []) ∧
    process_candidate "cand-7b" envC7 =
      Except.ok [("candidate_id", PyVal.str "cand-7b"),
                 ("processed", PyVal.num 0), ("failed", PyVal.num 0)] :=
  ⟨rfl, (process_candidate_summary_keys "cand-7b" envC7
    { notify_on_complete := false } [] rfl rfl).1 rfl⟩

/-- C8: the summary is independent of every side-effect outcome — the
candidate update, confirmation email, HR notification, audit write and
owner notification can all fail without changing the returned summary —
and notify_campaign_owner never raises on any outcome. -/
theorem process_candidate_side_effects_isolated (cid : String) (env : WorkerEnv)
    (u a b c : Except String Unit) (lk : Except String (Option String))
    (ins : Except String Unit) :
    process_candidate cid
      { env with updateCandidate := u, confirmationEmail := a, hrNotification := b,
                 auditLog := c, ownerLookup := lk, createNotificationInsert := ins } =
      process_candidate cid env ∧
    (∀ (lk2 : Except String (Option String)) (ex : Option String)
      (ins2 : Except String Unit), notify_campaign_owner lk2 ex ins2 = Except.ok ()) := by
  constructor
  · rfl
  · intro lk2 ex ins2
    cases lk2 with
    | error e => rfl
    | ok o =>
      cases o with
      | none => rfl
      | some owner =>
        show (if ex = some owner then Except.ok () else create_notification ins2) =
          Except.ok ()
        by_cases hex : ex = some owner
        · rw [if_pos hex]
        · rw [if_neg hex]
          cases ins2 <;> rfl
